import Mathlib

/-!
# Verification of the photo-tagger dive/photo matching core

A shallow embedding, in Lean 4, of the core logic of the `photo_tagger`
repository: the temporal matcher (`photo_tagger/matcher.py`), the GPS
write-backend chain and DMS coordinate conversions
(`photo_tagger/image_processor.py`), the XMP sidecar keyword merge
(`photo_tagger/image_processor.py`), the EXIF datetime parsing of the image
and video processors, and the Subsurface dive-log record construction
(`photo_tagger/subsurface_parser.py`).

Modelling conventions:
* `datetime` values compared and subtracted by the matcher are modelled as
  integer timestamps counting seconds; `timedelta(minutes=m)` is `60 * m`
  seconds, and the Python test `abs(Δ.total_seconds()) / 3600 <= 2.0` is the
  exact integer test `|Δ| ≤ 7200` (the division by 3600 and the comparison
  with 2.0 are exact at whole-second granularity).
* Python floats in the coordinate conversions are modelled as exact rationals
  (`ℚ`); `int(x)` is truncation toward zero.
* File/terminal I O is factored out: functions receive the data the Python
  code would have read (EXIF tag listings, typed user input events, backend
  success outcomes) as explicit arguments.
-/

set_option maxHeartbeats 1000000

namespace PhotoTagger

namespace Matcher

/-- A dive record as the matcher consumes it (`subsurface_parser.Dive`,
restricted to the fields `matcher.py` reads): start `time` in integer
seconds, `duration_minutes`, ordinal `number`. -/
structure Dive where
  number : Int
  time : Int
  duration_minutes : Int
  siteName : String
deriving DecidableEq, Repr

/-- `matcher.Match`: a candidate pairing of a photo and a dive. -/
structure Match where
  image_path : String
  dive : Dive
  photo_time : Int
  confidence : String
deriving DecidableEq, Repr

/-- `DiveMatcher._check_time_overlap`: classify a photo time against one dive.
`dive_end = dive.time + timedelta(minutes=duration)`; within the closed window
is `"within_dive"`, otherwise within two hours (7200 s) of the start is
`"near_dive"`, otherwise `None`. -/
def check_time_overlap (photo_time : Int) (dive : Dive) : Option String :=
  let dive_start := dive.time
  let dive_end := dive.time + 60 * dive.duration_minutes
  if dive_start ≤ photo_time ∧ photo_time ≤ dive_end then
    some "within_dive"
  else if (photo_time - dive_start).natAbs ≤ 7200 then
    some "near_dive"
  else
    none

/-- `DiveMatcher._confidence_priority`: dictionary lookup with default 4. -/
def confidence_priority (confidence : String) : Int :=
  if confidence = "within_dive" then 1
  else if confidence = "near_dive" then 2
  else if confidence = "uncertain" then 3
  else 4

/-- The sort key of `DiveMatcher.find_matches`: the Python tuple
`(self._confidence_priority(m.confidence), abs((m.photo_time - m.dive.time).total_seconds()))`. -/
def sortKey (m : Match) : Int × Int :=
  (confidence_priority m.confidence, ((m.photo_time - m.dive.time).natAbs : Int))

/-- Lexicographic comparison of sort keys: how Python orders the key tuples. -/
def matchLe (a b : Match) : Prop :=
  (sortKey a).1 < (sortKey b).1 ∨
    ((sortKey a).1 = (sortKey b).1 ∧ (sortKey a).2 ≤ (sortKey b).2)

instance : DecidableRel matchLe := fun a b => by
  unfold matchLe; infer_instance

instance : IsTotal Match matchLe := by
  constructor; intro a b; unfold matchLe; omega

instance : IsTrans Match matchLe := by
  constructor; intro a b c; unfold matchLe; omega

/-- Ordering of dives used by `DiveMatcher.__init__`:
`sorted(dives, key=lambda d: d.time)`. -/
def diveTimeLe (a b : Dive) : Prop := a.time ≤ b.time

instance : DecidableRel diveTimeLe := fun a b => by
  unfold diveTimeLe; infer_instance

/-- `DiveMatcher.__init__`: `self.dives = sorted(dives, key=lambda d: d.time)`
(Python `sorted` is stable; `List.insertionSort` inserts an earlier element
before later key-equal elements, which is the same stable order). -/
def init_dives (dives : List Dive) : List Dive :=
  List.insertionSort diveTimeLe dives

/-- One event delivered by the interactive terminal to the `input()` call of
`InteractiveMatcher.get_user_confirmed_match`: either a line of text or a
KeyboardInterrupt.  Exhausting the event list models `input()` raising
EOFError (end of input). -/
inductive InEvent where
  | line (s : String)
  | interrupt
deriving DecidableEq, Repr

/-- The candidate list `matches` built by the loop in
`DiveMatcher.find_matches` before sorting: one `Match` per dive whose
`_check_time_overlap` result is truthy, in `self.dives` order. -/
def candidate_matches (image_path : String) (dives : List Dive) (photo_time : Int) :
    List Match :=
  dives.filterMap fun dive =>
    (check_time_overlap photo_time dive).map fun match_type =>
      { image_path := image_path, dive := dive, photo_time := photo_time,
        confidence := match_type }

/-- `DiveMatcher.find_matches`: `photo_time` is the capture time the image
processor extracted (`none` when falsy); on `none` the function returns `[]`,
otherwise the candidates are stably sorted by `(priority, abs delta)`.
`dives` is the raw constructor argument; `init_dives` applies the
constructor's time sort. -/
def find_matches (image_path : String) (dives : List Dive) (photo_time : Option Int) :
    List Match :=
  match photo_time with
  | none => []
  | some t =>
      List.insertionSort matchLe (candidate_matches image_path (init_dives dives) t)

end Matcher

/-- Python `str.strip()` on a character list: remove leading and trailing
whitespace. -/
def trimChars (cs : List Char) : List Char :=
  ((cs.dropWhile Char.isWhitespace).reverse.dropWhile Char.isWhitespace).reverse

/-- Python `str.strip()`. -/
def pyStrip (s : String) : String := String.mk (trimChars s.data)

/-- Value of a string of decimal digits. -/
def digitsVal (cs : List Char) : Nat :=
  cs.foldl (fun n c => 10 * n + (c.toNat - 48)) 0

/-- A non-empty all-decimal-digit character list. -/
def allDigits (cs : List Char) : Bool := !cs.isEmpty && cs.all Char.isDigit

/-- Python `int(str)` on stripped characters: an optional sign followed by
decimal digits; anything else raises ValueError, modelled as `none`. -/
def pyIntOfChars (cs : List Char) : Option Int :=
  match cs with
  | '-' :: rest => if allDigits rest then some (-(digitsVal rest : Int)) else none
  | '+' :: rest => if allDigits rest then some ((digitsVal rest : Int)) else none
  | _ => if allDigits cs then some ((digitsVal cs : Int)) else none

/-- Python `int(str)` (which itself ignores surrounding whitespace). -/
def pyInt (s : String) : Option Int := pyIntOfChars (trimChars s.data)

namespace Matcher

/-- The `while True` input loop at the end of
`InteractiveMatcher.get_user_confirmed_match`.  A line `"0"` (after strip)
returns `None`; a line parsing to `n` with `n - 1` in range of
`matches[:5]` returns `matches[n - 1]`; an unparseable line (ValueError) or a
KeyboardInterrupt prints a message and re-prompts; end of input (EOFError)
returns `None`. -/
def prompt_loop (ms : List Match) : List InEvent → Option Match
  | [] => none
  | InEvent.interrupt :: rest => prompt_loop ms rest
  | InEvent.line s :: rest =>
      let choice := pyStrip s
      if choice = "0" then none
      else
        match pyInt choice with
        | none => prompt_loop ms rest
        | some n =>
            let choice_idx := n - 1
            if 0 ≤ choice_idx ∧ choice_idx < ((ms.take 5).length : Int) then
              ms.get? choice_idx.toNat
            else prompt_loop ms rest

/-- `InteractiveMatcher.get_user_confirmed_match`, resolution step: the body
run on the ranked list returned by `find_matches`.  `events` is the stream of
terminal input consumed only if the interactive prompt is reached. -/
def resolve (events : List InEvent) (ms : List Match) : Option Match :=
  if ms = [] then none
  else if ms.length = 1 then ms.head?
  else
    let within_dive_matches := ms.filter fun m => m.confidence == "within_dive"
    if within_dive_matches ≠ [] then within_dive_matches.head?
    else prompt_loop ms events

/-- `InteractiveMatcher.get_user_confirmed_match` end to end. -/
def get_user_confirmed_match (events : List InEvent) (image_path : String)
    (dives : List Dive) (photo_time : Option Int) : Option Match :=
  resolve events (find_matches image_path dives photo_time)

end Matcher

namespace ImageProcessor

/-- `ImageProcessor.set_gps_coordinates`: after the `dry_run` early return, try
`_set_gps_coordinates_exiv2` and, only if it fails, `_set_gps_coordinates_piexif`.
Each backend catches its own exceptions and reports success as a boolean, so
the backends are modelled by their success outcomes. -/
def set_gps_coordinates (dry_run exiv2_ok piexif_ok : Bool) : Bool :=
  if dry_run then true
  else if exiv2_ok then true
  else piexif_ok

/-- Instrumentation of the same control flow: the backends
`set_gps_coordinates` actually invokes, in invocation order. -/
def set_gps_backends_tried (dry_run exiv2_ok : Bool) : List String :=
  if dry_run then []
  else if exiv2_ok then ["exiv2"]
  else ["exiv2", "piexif"]

/-- Python `int(x)` on a float/rational: truncation toward zero. -/
def trunc (q : ℚ) : Int := if 0 ≤ q then ⌊q⌋ else ⌈q⌉

/-- `ImageProcessor._decimal_to_dms`: decimal degrees to the EXIF rational
triple `((deg, 1), (min, 1), (int(sec * 1000), 1000))`. -/
def decimal_to_dms (decimal_degrees : ℚ) : (Int × Int) × (Int × Int) × (Int × Int) :=
  let degrees := trunc decimal_degrees
  let minutes_float := (decimal_degrees - (degrees : ℚ)) * 60
  let minutes := trunc minutes_float
  let seconds := (minutes_float - (minutes : ℚ)) * 60
  ((degrees, 1), (minutes, 1), (trunc (seconds * 1000), 1000))

/-- `ImageProcessor._dms_to_decimal`: `deg + min / 60 + sec / 3600` from the
rational pairs. -/
def dms_to_decimal (dms : (Int × Int) × (Int × Int) × (Int × Int)) : ℚ :=
  let degrees : ℚ := (dms.1.1 : ℚ) / (dms.1.2 : ℚ)
  let minutes : ℚ := (dms.2.1.1 : ℚ) / (dms.2.1.2 : ℚ)
  let seconds : ℚ := (dms.2.2.1 : ℚ) / (dms.2.2.2 : ℚ)
  degrees + minutes / 60 + seconds / 3600

/-- `ImageProcessor._decimal_to_dms_components`: the same split kept as
separate components, seconds untruncated. -/
def decimal_to_dms_components (decimal_degrees : ℚ) : Int × Int × ℚ :=
  let degrees := trunc decimal_degrees
  let minutes_float := (decimal_degrees - (degrees : ℚ)) * 60
  let minutes := trunc minutes_float
  let seconds := (minutes_float - (minutes : ℚ)) * 60
  (degrees, minutes, seconds)

end ImageProcessor

/-- The head of a filtered list is the first element satisfying the
predicate. -/
theorem head?_filter_eq_find? {α : Type _} (p : α → Bool) :
    ∀ l : List α, (l.filter p).head? = l.find? p
  | [] => rfl
  | x :: xs => by
    cases hx : p x <;>
      simp [List.filter_cons, hx, List.find?_cons_of_pos, List.find?_cons_of_neg,
        head?_filter_eq_find? p xs]

namespace Matcher

/-- C3: on any ranked candidate list containing a `within_dive` candidate,
`get_user_confirmed_match`'s resolution returns the first `within_dive`
candidate in rank order, and the interactive decision capability is never
consulted: the result is the same for every input-event stream. -/
theorem resolve_within_dive_auto (events : List InEvent) (ms : List Match)
    (h : ∃ m ∈ ms, m.confidence = "within_dive") :
    resolve events ms = ms.find? (fun m => m.confidence == "within_dive") ∧
    ∀ events2, resolve events2 ms = resolve events ms := by
  have main : ∀ ev : List InEvent,
      resolve ev ms = ms.find? (fun m => m.confidence == "within_dive") := by
    intro ev
    obtain ⟨m0, hm0, hc0⟩ := h
    have hfil : ms.filter (fun m => m.confidence == "within_dive") ≠ [] := by
      have hmem : m0 ∈ ms.filter (fun m => m.confidence == "within_dive") :=
        List.mem_filter.2 ⟨hm0, by simp [hc0]⟩
      intro he
      rw [he] at hmem
      exact absurd hmem (List.not_mem_nil m0)
    cases ms with
    | nil => exact absurd hm0 (List.not_mem_nil m0)
    | cons a as =>
      cases as with
      | nil =>
        have ha : m0 = a := List.mem_singleton.1 hm0
        have ha2 : a.confidence = "within_dive" := by rw [← ha]; exact hc0
        have hpa : (a.confidence == "within_dive") = true := by simp [ha2]
        simp [resolve, List.find?_cons_of_pos _ hpa, ha2]
      | cons b bs =>
        have hlen : (a :: b :: bs).length ≠ 1 := by simp
        unfold resolve
        rw [if_neg (by simp), if_neg hlen]
        dsimp only
        rw [if_pos hfil]
        exact head?_filter_eq_find? _ _
  exact ⟨main events, fun events2 => (main events2).trans (main events).symm⟩

/-- C7: in the interactive selection loop, a parsed selection outside the
presented range is rejected and the loop re-prompts on the remaining input;
end of input (EOFError) resolves to no match; an explicit cancel (`"0"`)
resolves to no match; a KeyboardInterrupt is caught and re-prompts instead of
propagating. -/
theorem prompt_loop_rejects_and_cancels (ms : List Match) (rest : List InEvent)
    (s : String) (n : Int)
    (hzero : pyStrip s ≠ "0")
    (hparse : pyInt (pyStrip s) = some n)
    (hrange : n < 1 ∨ ((ms.take 5).length : Int) < n) :
    prompt_loop ms (InEvent.line s :: rest) = prompt_loop ms rest ∧
    prompt_loop ms [] = none ∧
    (∀ r2, prompt_loop ms (InEvent.line "0" :: r2) = none) ∧
    (∀ r2, prompt_loop ms (InEvent.interrupt :: r2) = prompt_loop ms r2) := by
  refine ⟨?_, rfl, ?_, fun r2 => rfl⟩
  · simp only [prompt_loop]
    rw [if_neg hzero, hparse]
    dsimp only
    rw [if_neg (by omega)]
  · intro r2
    have h0 : pyStrip "0" = "0" := by decide
    simp [prompt_loop, h0]

/-- Witness for C7 at a concrete rejected selection. -/
theorem prompt_loop_rejects_and_cancels_witness :
    prompt_loop [] [InEvent.line "7"] = prompt_loop [] [] ∧
    prompt_loop ([] : List Match) [] = none ∧
    (∀ r2, prompt_loop ([] : List Match) (InEvent.line "0" :: r2) = none) ∧
    (∀ r2, prompt_loop ([] : List Match) (InEvent.interrupt :: r2) = prompt_loop [] r2) :=
  prompt_loop_rejects_and_cancels [] [] "7" 7 (by decide) (by decide) (Or.inr (by decide))

/-- Witness for C3 at a concrete two-candidate list whose first element is a
`within_dive` match. -/
theorem resolve_within_dive_auto_witness :
    resolve [] [⟨"p.jpg", ⟨1, 0, 45, "Reef"⟩, 10, "within_dive"⟩,
        ⟨"p.jpg", ⟨2, 5000, 45, "Wall"⟩, 10, "near_dive"⟩] =
      List.find? (fun m => m.confidence == "within_dive")
        [⟨"p.jpg", ⟨1, 0, 45, "Reef"⟩, 10, "within_dive"⟩,
          ⟨"p.jpg", ⟨2, 5000, 45, "Wall"⟩, 10, "near_dive"⟩] ∧
    ∀ events2,
      resolve events2 [⟨"p.jpg", ⟨1, 0, 45, "Reef"⟩, 10, "within_dive"⟩,
          ⟨"p.jpg", ⟨2, 5000, 45, "Wall"⟩, 10, "near_dive"⟩] =
        resolve [] [⟨"p.jpg", ⟨1, 0, 45, "Reef"⟩, 10, "within_dive"⟩,
          ⟨"p.jpg", ⟨2, 5000, 45, "Wall"⟩, 10, "near_dive"⟩] :=
  resolve_within_dive_auto [] _ ⟨⟨"p.jpg", ⟨1, 0, 45, "Reef"⟩, 10, "within_dive"⟩,
    List.mem_cons_self _ _, rfl⟩

end Matcher

end PhotoTagger

namespace PhotoTagger

namespace Matcher

/-- C1: `_check_time_overlap` classifies `within_dive` exactly on the closed
window `[dive.time, dive.time + 60 * duration]` (single instant when the
duration is 0), `near_dive` exactly when outside the window but within
7200 seconds (2 hours) of the dive start, and no candidate otherwise. -/
theorem check_time_overlap_cases (photo_time : Int) (dive : Dive) :
    (check_time_overlap photo_time dive = some "within_dive" ↔
      dive.time ≤ photo_time ∧ photo_time ≤ dive.time + 60 * dive.duration_minutes) ∧
    (check_time_overlap photo_time dive = some "near_dive" ↔
      (¬ (dive.time ≤ photo_time ∧ photo_time ≤ dive.time + 60 * dive.duration_minutes) ∧
        (photo_time - dive.time).natAbs ≤ 7200)) ∧
    (check_time_overlap photo_time dive = none ↔
      (¬ (dive.time ≤ photo_time ∧ photo_time ≤ dive.time + 60 * dive.duration_minutes) ∧
        7200 < (photo_time - dive.time).natAbs)) := by
  unfold check_time_overlap
  dsimp only
  split_ifs with h1 h2 <;>
    refine ⟨?_, ?_, ?_⟩ <;>
    simp_all

/-- C9: when no capture time could be extracted from the media file,
`find_matches` returns the empty list (it does not raise). -/
theorem find_matches_no_capture_time (image_path : String) (dives : List Dive) :
    find_matches image_path dives none = [] := rfl

end Matcher

/-- Filtering by a predicate that forces the relation to hold commutes with
`orderedInsert` of an element satisfying the predicate: the inserted element
lands in front of every retained element. -/
theorem filter_orderedInsert_pos {α : Type _} (r : α → α → Prop) [DecidableRel r]
    (p : α → Bool) (x : α) (hx : p x = true) (hxr : ∀ b, p b = true → r x b) :
    ∀ l : List α, (List.orderedInsert r x l).filter p = x :: l.filter p
  | [] => by simp [List.orderedInsert, hx]
  | b :: l => by
    by_cases hrb : r x b
    · simp [List.orderedInsert, if_pos hrb, List.filter_cons, hx]
    · have hpb : p b = false := by
        cases hb : p b
        · rfl
        · exact absurd (hxr b hb) hrb
      simp [List.orderedInsert, if_neg hrb, List.filter_cons, hpb,
        filter_orderedInsert_pos r p x hx hxr l]

/-- Filtering past an inserted element the predicate rejects leaves the
filtered list unchanged. -/
theorem filter_orderedInsert_neg {α : Type _} (r : α → α → Prop) [DecidableRel r]
    (p : α → Bool) (x : α) (hx : p x = false) :
    ∀ l : List α, (List.orderedInsert r x l).filter p = l.filter p
  | [] => by simp [List.orderedInsert, hx]
  | b :: l => by
    by_cases hrb : r x b
    · simp [List.orderedInsert, if_pos hrb, List.filter_cons, hx]
    · simp [List.orderedInsert, if_neg hrb, List.filter_cons,
        filter_orderedInsert_neg r p x hx l]

/-- Stability of `insertionSort`: on any class of key-equal elements (any
predicate `p` on which `r` is guaranteed), the sort preserves the original
sublist order exactly. -/
theorem filter_insertionSort {α : Type _} (r : α → α → Prop) [DecidableRel r]
    (p : α → Bool) (hp : ∀ a b, p a = true → p b = true → r a b) :
    ∀ l : List α, (List.insertionSort r l).filter p = l.filter p
  | [] => rfl
  | x :: xs => by
    cases hx : p x
    · rw [List.insertionSort, filter_orderedInsert_neg r p x hx,
        filter_insertionSort r p hp xs, List.filter_cons, hx]
      simp
    · rw [List.insertionSort, filter_orderedInsert_pos r p x hx (fun b hb => hp x b hx hb),
        filter_insertionSort r p hp xs, List.filter_cons, hx]
      simp

namespace Matcher

/-- C2: for a photo with extracted capture time `t`, `find_matches` returns
the candidate list sorted ascending by the key pair
`(confidence priority, |photo_time - dive.time|)`; it is a permutation of the
unsorted candidate list (one entry per admitted dive, in the time-sorted
`self.dives` order), and for every key value the key-equal candidates appear
in exactly their original order (stability). -/
theorem find_matches_sorted_stable (image_path : String) (dives : List Dive) (t : Int) :
    List.Sorted matchLe (find_matches image_path dives (some t)) ∧
    (find_matches image_path dives (some t)).Perm
      (candidate_matches image_path (init_dives dives) t) ∧
    (∀ k : Int × Int,
      (find_matches image_path dives (some t)).filter (fun m => decide (sortKey m = k)) =
        (candidate_matches image_path (init_dives dives) t).filter
          (fun m => decide (sortKey m = k))) := by
  refine ⟨List.sorted_insertionSort matchLe _, List.perm_insertionSort matchLe _, ?_⟩
  intro k
  apply filter_insertionSort
  intro a b ha hb
  have ha' : sortKey a = k := of_decide_eq_true ha
  have hb' : sortKey b = k := of_decide_eq_true hb
  have h1 : (sortKey a).1 = (sortKey b).1 := by rw [ha', hb']
  have h2 : (sortKey a).2 = (sortKey b).2 := by rw [ha', hb']
  unfold matchLe
  omega

end Matcher

end PhotoTagger

namespace PhotoTagger

namespace ImageProcessor

/-- C4: the GPS write chain tries the backends in the fixed order
exiv2 (format-aware RAW writer) then piexif, returns success as soon as one
backend writes without error — never invoking a later backend — and when
every backend fails it returns `false` (a value, not an exception). -/
theorem set_gps_coordinates_chain :
    (∀ piexif_ok, set_gps_coordinates false true piexif_ok = true ∧
      set_gps_backends_tried false true = ["exiv2"]) ∧
    (∀ piexif_ok, set_gps_coordinates false false piexif_ok = piexif_ok ∧
      set_gps_backends_tried false false = ["exiv2", "piexif"]) ∧
    set_gps_coordinates false false false = false := by
  decide

/-- Truncation toward zero moves a rational by strictly less than 1. -/
theorem abs_trunc_sub_lt_one (q : ℚ) : |(trunc q : ℚ) - q| < 1 := by
  unfold trunc
  split_ifs with h
  · rw [abs_lt]
    constructor
    · have := Int.lt_floor_add_one q
      push_cast
      linarith
    · have := Int.floor_le q
      push_cast
      linarith
  · rw [abs_lt]
    constructor
    · have := Int.le_ceil q
      push_cast
      linarith
    · have := Int.ceil_lt_add_one q
      push_cast
      linarith

/-- C6: for any decimal degree value in the coordinate range, the write-path
conversion `_decimal_to_dms` (seconds truncated to 3 decimal places) followed
by the read-path conversion `_dms_to_decimal` reproduces the value within
1/3600000 of a degree. -/
theorem dms_round_trip (d : ℚ) (h1 : -180 ≤ d) (h2 : d ≤ 180) :
    |dms_to_decimal (decimal_to_dms d) - d| ≤ 1 / 3600000 := by
  unfold decimal_to_dms dms_to_decimal
  dsimp only
  set D := trunc d with hD
  set mf : ℚ := (d - (D : ℚ)) * 60 with hmf
  set M := trunc mf with hM
  set sec : ℚ := (mf - (M : ℚ)) * 60 with hsec
  set S := trunc (sec * 1000) with hS
  have hid : ((D : ℚ) / ((1 : Int) : ℚ) + ((M : ℚ) / ((1 : Int) : ℚ)) / 60 +
      ((S : ℚ) / ((1000 : Int) : ℚ)) / 3600) - d = ((S : ℚ) - sec * 1000) / 3600000 := by
    rw [hsec, hmf]
    push_cast
    ring
  rw [hid]
  have habs : |(S : ℚ) - sec * 1000| < 1 := by
    rw [hS]
    exact abs_trunc_sub_lt_one (sec * 1000)
  rw [abs_div]
  have h36 : |(3600000 : ℚ)| = 3600000 := by norm_num
  rw [h36]
  rw [div_le_div_iff (by norm_num) (by norm_num)]
  nlinarith [abs_nonneg ((S : ℚ) - sec * 1000)]

/-- Witness for C6 at the concrete latitude 37.5 degrees. -/
theorem dms_round_trip_witness :
    -180 ≤ (75 / 2 : ℚ) ∧ (75 / 2 : ℚ) ≤ 180 ∧
      |dms_to_decimal (decimal_to_dms (75 / 2)) - 75 / 2| ≤ 1 / 3600000 :=
  ⟨by norm_num, by norm_num, dms_round_trip (75 / 2) (by norm_num) (by norm_num)⟩

end ImageProcessor

end PhotoTagger

namespace PhotoTagger

namespace ImageProcessor

/-- The keyword combination step of `ImageProcessor._update_existing_xmp`:
`all_keywords = list(set(existing_keywords + keywords)); all_keywords.sort()`.
The result is the sorted deduplication of the concatenation; Python's set
iteration order is irrelevant because the list is sorted afterwards
(see `mergeKeywords_perm_left`). -/
def mergeKeywords (existing_keywords keywords : List String) : List String :=
  List.insertionSort (fun a b : String => a ≤ b) ((existing_keywords ++ keywords).dedup)

/-- The `rdf:Description` element of an XMP sidecar, restricted to the parts
`_update_existing_xmp` manages.  GPS elements are kept as the data their text
renders deterministically (`deg`, decimal minutes, hemisphere letter);
`rest` stands for all elements/attributes the merge never touches. -/
structure XmpDesc where
  dc_subject : List String
  lr_subject : List String
  gps_latitude : Option (Int × ℚ × Char)
  gps_longitude : Option (Int × ℚ × Char)
  datetime_original : Option Int
  rest : List String
deriving DecidableEq, Repr

/-- `ImageProcessor._read_existing_xmp_keywords`: keywords are read from the
`dc:subject` bag and then the `lightroom:hierarchicalSubject` bag, and
deduplicated with `list(set(...))` (order unspecified in Python; modelled by
`List.dedup`, a canonical choice — any permutation yields the same merge). -/
def read_existing_xmp_keywords (d : XmpDesc) : List String :=
  (d.dc_subject ++ d.lr_subject).dedup

/-- The data of the text `f'{deg},{decimal_minutes:.2f}{dir}'` written by
`_update_xmp_gps` for one coordinate: a deterministic function of the
coordinate. -/
def gps_element (coordinate : ℚ) (pos_dir neg_dir : Char) : Int × ℚ × Char :=
  let c := decimal_to_dms_components |coordinate|
  (c.1, (c.2.1 : ℚ) + c.2.2 / 60, if 0 ≤ coordinate then pos_dir else neg_dir)

/-- `ImageProcessor._update_existing_xmp`: replace both keyword bags with the
sorted deduplicated union of existing and new keywords; replace the GPS
elements when both coordinates are provided; replace `exif:DateTimeOriginal`
when a capture time is available; leave everything else untouched. -/
def update_existing_xmp (d : XmpDesc) (keywords : List String)
    (latitude longitude : Option ℚ) (capture_time : Option Int) : XmpDesc :=
  let all_keywords := mergeKeywords (read_existing_xmp_keywords d) keywords
  { d with
    dc_subject := all_keywords
    lr_subject := all_keywords
    gps_latitude :=
      match latitude, longitude with
      | some la, some _ => some (gps_element la 'N' 'S')
      | _, _ => d.gps_latitude
    gps_longitude :=
      match latitude, longitude with
      | some _, some lo => some (gps_element lo 'E' 'W')
      | _, _ => d.gps_longitude
    datetime_original :=
      match capture_time with
      | some t => some t
      | none => d.datetime_original }

theorem mergeKeywords_sorted (e n : List String) :
    List.Sorted (· ≤ ·) (mergeKeywords e n) :=
  List.sorted_insertionSort _ _

theorem mergeKeywords_nodup (e n : List String) : (mergeKeywords e n).Nodup :=
  (List.perm_insertionSort _ _).nodup_iff.2 (List.nodup_dedup _)

theorem mergeKeywords_mem (e n : List String) (a : String) :
    a ∈ mergeKeywords e n ↔ a ∈ e ∨ a ∈ n := by
  rw [mergeKeywords, (List.perm_insertionSort _ _).mem_iff, List.mem_dedup, List.mem_append]

/-- A sorted duplicate-free list with the membership of `mergeKeywords e n`
is `mergeKeywords e n`: sorted-set representation is canonical. -/
theorem mergeKeywords_canonical {l : List String} {e n : List String}
    (hs : List.Sorted (· ≤ ·) l) (hn : l.Nodup)
    (hm : ∀ a, a ∈ l ↔ a ∈ e ∨ a ∈ n) : l = mergeKeywords e n := by
  refine List.eq_of_perm_of_sorted ?_ hs (mergeKeywords_sorted e n)
  refine (List.perm_ext_iff_of_nodup hn (mergeKeywords_nodup e n)).2 ?_
  intro a
  rw [mergeKeywords_mem]
  exact hm a

/-- The Python set order in `_read_existing_xmp_keywords` cannot influence the
merge: any permutation of the existing keywords produces the same result. -/
theorem mergeKeywords_perm_left {e1 e2 : List String} (h : e1.Perm e2) (n : List String) :
    mergeKeywords e1 n = mergeKeywords e2 n := by
  refine mergeKeywords_canonical (mergeKeywords_sorted e1 n) (mergeKeywords_nodup e1 n) ?_
  intro a
  rw [mergeKeywords_mem, h.mem_iff]

/-- Re-merging the merged keyword list (read back through the two bags and a
set) with the same new keywords reproduces it exactly. -/
theorem mergeKeywords_idem (e n : List String) :
    mergeKeywords ((mergeKeywords e n ++ mergeKeywords e n).dedup) n = mergeKeywords e n := by
  refine (mergeKeywords_canonical (mergeKeywords_sorted e n) (mergeKeywords_nodup e n) ?_).symm
  intro a
  rw [List.mem_dedup, List.mem_append, mergeKeywords_mem]
  tauto

end ImageProcessor

end PhotoTagger

namespace PhotoTagger

namespace ImageProcessor

/-- C5: `_update_existing_xmp` replaces the keyword bags with the union of the
existing and new keyword sets, deduplicated and sorted lexicographically (both
bags get the same list), and the merge is idempotent: running the same update
(same keywords, same GPS pair, same capture time) on the already-updated
sidecar changes nothing — same deduplicated, identically ordered keywords, no
duplicate entries, identical GPS and datetime elements, untouched rest. -/
theorem update_existing_xmp_union_idempotent (d : XmpDesc) (keywords : List String)
    (latitude longitude : Option ℚ) (capture_time : Option Int) :
    List.Sorted (· ≤ ·)
      (update_existing_xmp d keywords latitude longitude capture_time).dc_subject ∧
    (update_existing_xmp d keywords latitude longitude capture_time).dc_subject.Nodup ∧
    (update_existing_xmp d keywords latitude longitude capture_time).lr_subject =
      (update_existing_xmp d keywords latitude longitude capture_time).dc_subject ∧
    (∀ a, a ∈ (update_existing_xmp d keywords latitude longitude capture_time).dc_subject ↔
      a ∈ d.dc_subject ∨ a ∈ d.lr_subject ∨ a ∈ keywords) ∧
    update_existing_xmp (update_existing_xmp d keywords latitude longitude capture_time)
        keywords latitude longitude capture_time =
      update_existing_xmp d keywords latitude longitude capture_time := by
  refine ⟨mergeKeywords_sorted _ _, mergeKeywords_nodup _ _, rfl, ?_, ?_⟩
  · intro a
    show a ∈ mergeKeywords (read_existing_xmp_keywords d) keywords ↔ _
    rw [mergeKeywords_mem, read_existing_xmp_keywords, List.mem_dedup, List.mem_append]
    tauto
  · cases latitude <;> cases longitude <;> cases capture_time <;>
      simp [update_existing_xmp, read_existing_xmp_keywords, mergeKeywords_idem]

end ImageProcessor

end PhotoTagger

namespace PhotoTagger

/-- A timezone-naive `datetime.datetime` (whole seconds, as produced by
`datetime.strptime` on the formats used in this codebase). -/
structure DateTime where
  year : Nat
  month : Nat
  day : Nat
  hour : Nat
  minute : Nat
  second : Nat
deriving DecidableEq, Repr

/-- Split a character list on a separator character (like `str.split(sep)`:
no separator collapsing, an empty input gives one empty field). -/
def splitOnChar (sep : Char) : List Char → List (List Char)
  | [] => [[]]
  | c :: cs =>
      if c = sep then [] :: splitOnChar sep cs
      else
        match splitOnChar sep cs with
        | [] => [[c]]
        | h :: t => (c :: h) :: t

/-- A numeric `strptime` field: all digits, width between `lo` and `hi`. -/
def digitsField (cs : List Char) (lo hi : Nat) : Bool :=
  allDigits cs && decide (lo ≤ cs.length) && decide (cs.length ≤ hi)

/-- Gregorian leap year, as `datetime` checks day validity. -/
def isLeapYear (y : Nat) : Bool :=
  (y % 4 == 0 && y % 100 != 0) || y % 400 == 0

/-- Days in a month, as `datetime` validates the day-of-month. -/
def daysInMonth (y m : Nat) : Nat :=
  if m = 2 then (if isLeapYear y then 29 else 28)
  else if m = 4 ∨ m = 6 ∨ m = 9 ∨ m = 11 then 30
  else 31

/-- `strptime` of a `%Y<sep>%m<sep>%d` date: a 4-digit year and 1-2 digit
month/day separated by the literal `sep`, with `datetime`'s range checks. -/
def parseYmd (sep : Char) (cs : List Char) : Option (Nat × Nat × Nat) :=
  match splitOnChar sep cs with
  | [ys, ms, ds] =>
      if digitsField ys 4 4 && digitsField ms 1 2 && digitsField ds 1 2 then
        let y := digitsVal ys
        let m := digitsVal ms
        let dd := digitsVal ds
        if 1 ≤ m ∧ m ≤ 12 ∧ 1 ≤ dd ∧ dd ≤ daysInMonth y m then some (y, m, dd)
        else none
      else none
  | _ => none

/-- `strptime` of a `%H:%M:%S` time. -/
def parseHms (cs : List Char) : Option (Nat × Nat × Nat) :=
  match splitOnChar ':' cs with
  | [hs, ms, ss] =>
      if digitsField hs 1 2 && digitsField ms 1 2 && digitsField ss 1 2 then
        let h := digitsVal hs
        let mi := digitsVal ms
        let s := digitsVal ss
        if h ≤ 23 ∧ mi ≤ 59 ∧ s ≤ 59 then some (h, mi, s) else none
      else none
  | _ => none

/-- `strptime` of a `%H:%M` time. -/
def parseHm (cs : List Char) : Option (Nat × Nat) :=
  match splitOnChar ':' cs with
  | [hs, ms] =>
      if digitsField hs 1 2 && digitsField ms 1 2 then
        let h := digitsVal hs
        let mi := digitsVal ms
        if h ≤ 23 ∧ mi ≤ 59 then some (h, mi) else none
      else none
  | _ => none

/-- `strptime` of a bare `%H` hour. -/
def parseHourOnly (cs : List Char) : Option Nat :=
  if digitsField cs 1 2 && decide (digitsVal cs ≤ 23) then some (digitsVal cs)
  else none

/-- `datetime.strptime(s, '%Y<sep>%m<sep>%d %H:%M:%S')`: the full string must
match (strptime rejects trailing input). -/
def parseDateTimeSep (dateSep : Char) (s : String) : Option DateTime :=
  match splitOnChar ' ' s.data with
  | [dpart, tpart] =>
      match parseYmd dateSep dpart, parseHms tpart with
      | some (y, m, d), some (h, mi, se) => some ⟨y, m, d, h, mi, se⟩
      | _, _ => none
  | _ => none

/-- A string matching `strptime`'s `%z` directive: `Z` or a signed
`HHMM` / `HH:MM` UTC offset. -/
def validTzOffset (cs : List Char) : Bool :=
  match cs with
  | ['Z'] => true
  | sign :: rest =>
      (sign == '+' || sign == '-') &&
        (match rest with
         | [h1, h2, m1, m2] =>
             [h1, h2, m1, m2].all Char.isDigit &&
               decide (digitsVal [h1, h2] ≤ 23) && decide (digitsVal [m1, m2] ≤ 59)
         | [h1, h2, ':', m1, m2] =>
             [h1, h2, m1, m2].all Char.isDigit &&
               decide (digitsVal [h1, h2] ≤ 23) && decide (digitsVal [m1, m2] ≤ 59)
         | _ => false)
  | [] => false

/-- `datetime.strptime(s, '%Y<sep>%m<sep>%d %H:%M:%S%z')`; the resulting
aware datetime is modelled by its clock fields (the offset is validated but
not retained). -/
def parseDateTimeSepTz (dateSep : Char) (s : String) : Option DateTime :=
  match splitOnChar ' ' s.data with
  | [dpart, tpart] =>
      let base := tpart.takeWhile fun c => !(c == '+' || c == '-' || c == 'Z')
      let off := tpart.dropWhile fun c => !(c == '+' || c == '-' || c == 'Z')
      if validTzOffset off then
        match parseYmd dateSep dpart, parseHms base with
        | some (y, m, d), some (h, mi, se) => some ⟨y, m, d, h, mi, se⟩
        | _, _ => none
      else none
  | _ => none

end PhotoTagger

namespace PhotoTagger

namespace ImageProcessor

/-- The EXIF tag names `_get_capture_time_exiv2` tries, in preference order. -/
def exiv2_datetime_tags : List String :=
  ["Exif.Photo.DateTimeOriginal", "Exif.Photo.DateTimeDigitized", "Exif.Image.DateTime"]

/-- `ImageProcessor._get_capture_time_exiv2`: for each preferred tag name scan
the EXIF data (key/printed-value pairs); the first value parsing as
`'%Y:%m:%d %H:%M:%S'` wins; a ValueError skips to the next matching tag. -/
def get_capture_time_exiv2 (exif_data : List (String × String)) : Option DateTime :=
  exiv2_datetime_tags.findSome? fun tag_name =>
    (exif_data.filter fun tag => tag.1 == tag_name).findSome? fun tag =>
      parseDateTimeSep ':' tag.2

/-- `ImageProcessor._get_capture_time_piexif`: the three looked-up datetime
fields in order; falsy (`None`/empty) and unparseable values are skipped. -/
def get_capture_time_piexif (datetime_fields : List (Option String)) : Option DateTime :=
  datetime_fields.findSome? fun dt_field =>
    match dt_field with
    | none => none
    | some s => if s = "" then none else parseDateTimeSep ':' s

/-- The tag names `_get_capture_time_exifread` tries, in preference order. -/
def exifread_datetime_tags : List String :=
  ["EXIF DateTimeOriginal", "EXIF DateTimeDigitized", "Image DateTime",
    "DateTime", "EXIF DateTime"]

/-- `ImageProcessor._get_capture_time_exifread`: dictionary lookup of each tag
name in order; an unparseable value skips to the next tag name. -/
def get_capture_time_exifread (tags : List (String × String)) : Option DateTime :=
  exifread_datetime_tags.findSome? fun tag_name =>
    (tags.lookup tag_name).bind fun v => parseDateTimeSep ':' v

/-- `ImageProcessor.get_capture_time`: exiv2 first, then piexif, then exifread;
each backend receives the tag data it would have read from the file. -/
def get_capture_time (exiv2_tags : List (String × String))
    (piexif_fields : List (Option String)) (exifread_tags : List (String × String)) :
    Option DateTime :=
  match get_capture_time_exiv2 exiv2_tags with
  | some t => some t
  | none =>
      match get_capture_time_piexif piexif_fields with
      | some t => some t
      | none => get_capture_time_exifread exifread_tags

end ImageProcessor

namespace VideoProcessor

/-- The metadata fields `VideoProcessor.get_capture_time` tries, in order. -/
def date_fields : List String :=
  ["DateTimeOriginal", "MediaCreateDate", "CreateDate", "CreationDate"]

/-- `VideoProcessor.get_capture_time`: `exit_ok` is whether the exiftool
subprocess succeeded (non-zero exit or timeout gives `none`); for the first
present field, the three formats `'%Y:%m:%d %H:%M:%S'`,
`'%Y-%m-%d %H:%M:%S'`, `'%Y:%m:%d %H:%M:%S%z'` are tried in order; a field
that parses under none of them falls through to the next field. -/
def get_capture_time (exit_ok : Bool) (metadata : List (String × String)) :
    Option DateTime :=
  if exit_ok = false then none
  else
    date_fields.findSome? fun field =>
      (metadata.lookup field).bind fun date_str =>
        match parseDateTimeSep ':' date_str with
        | some t => some t
        | none =>
            match parseDateTimeSep '-' date_str with
            | some t => some t
            | none => parseDateTimeSepTz ':' date_str

end VideoProcessor

/-- C8 counterexample: an image whose only datetime tag uses dashed
separators (`"2023-10-15 14:30:25"`) yields no capture time from every image
backend — the image datetime parsing does not tolerate alternate separators. -/
theorem image_dashed_datetime_not_parsed :
    ImageProcessor.get_capture_time
        [("Exif.Photo.DateTimeOriginal", "2023-10-15 14:30:25")]
        [some "2023-10-15 14:30:25"]
        [("EXIF DateTimeOriginal", "2023-10-15 14:30:25")] = none := by
  decide

/-- C8 (amended): image capture-time parsing accepts exactly the canonical
`"YYYY:MM:DD HH:MM:SS"` format (a dashed value is rejected); an unparseable
tag value is skipped — the scan continues as if the tag were absent — rather
than failing; the video path additionally tolerates dashed date separators. -/
theorem capture_time_formats (name v : String) (tags : List (String × String))
    (hv : parseDateTimeSep ':' v = none) :
    ImageProcessor.get_capture_time
        [("Exif.Photo.DateTimeOriginal", "2023:10:15 14:30:25")] [] [] =
      some ⟨2023, 10, 15, 14, 30, 25⟩ ∧
    ImageProcessor.get_capture_time
        [("Exif.Photo.DateTimeOriginal", "2023-10-15 14:30:25")] [] [] = none ∧
    ImageProcessor.get_capture_time_exiv2 ((name, v) :: tags) =
      ImageProcessor.get_capture_time_exiv2 tags ∧
    VideoProcessor.get_capture_time true [("DateTimeOriginal", "2023-10-15 14:30:25")] =
      some ⟨2023, 10, 15, 14, 30, 25⟩ ∧
    VideoProcessor.get_capture_time true
        [("DateTimeOriginal", "garbage"), ("CreateDate", "2023:10:15 14:30:25")] =
      some ⟨2023, 10, 15, 14, 30, 25⟩ := by
  refine ⟨by decide, by decide, ?_, by decide, by decide⟩
  have key : ∀ tag_name : String,
      (((name, v) :: tags).filter fun tag => tag.1 == tag_name).findSome?
          (fun tag => parseDateTimeSep ':' tag.2) =
        (tags.filter fun tag => tag.1 == tag_name).findSome?
          (fun tag => parseDateTimeSep ':' tag.2) := by
    intro tag_name
    by_cases h : name = tag_name
    · simp [List.filter_cons, h, hv]
    · simp [List.filter_cons, h]
  simp only [ImageProcessor.get_capture_time_exiv2]
  congr 1
  funext tag_name
  exact key tag_name

/-- Witness for C8 (amended) at a concrete unparseable tag value. -/
theorem capture_time_formats_witness :
    ImageProcessor.get_capture_time
        [("Exif.Photo.DateTimeOriginal", "2023:10:15 14:30:25")] [] [] =
      some ⟨2023, 10, 15, 14, 30, 25⟩ ∧
    ImageProcessor.get_capture_time
        [("Exif.Photo.DateTimeOriginal", "2023-10-15 14:30:25")] [] [] = none ∧
    ImageProcessor.get_capture_time_exiv2
        [("Exif.Photo.DateTimeOriginal", "not a date")] =
      ImageProcessor.get_capture_time_exiv2 [] ∧
    VideoProcessor.get_capture_time true [("DateTimeOriginal", "2023-10-15 14:30:25")] =
      some ⟨2023, 10, 15, 14, 30, 25⟩ ∧
    VideoProcessor.get_capture_time true
        [("DateTimeOriginal", "garbage"), ("CreateDate", "2023:10:15 14:30:25")] =
      some ⟨2023, 10, 15, 14, 30, 25⟩ :=
  capture_time_formats "Exif.Photo.DateTimeOriginal" "not a date" [] (by decide)

end PhotoTagger

namespace PhotoTagger

/-- One decimal digit character. -/
def digitChar (d : Nat) : Char := Char.ofNat (48 + d % 10)

/-- Decimal digits of `n`, most significant first (`fuel`-structured; any
`fuel > n` suffices). -/
def natDigits : Nat → Nat → List Char
  | 0, _ => []
  | fuel + 1, n =>
      if n < 10 then [digitChar n]
      else natDigits fuel (n / 10) ++ [digitChar (n % 10)]

/-- Python `str(n)` for a natural number. -/
def natToStr (n : Nat) : String := String.mk (natDigits (n + 1) n)

/-- Python `str(i)` for an integer. -/
def intToStr (i : Int) : String :=
  if i < 0 then "-" ++ natToStr i.natAbs else natToStr i.natAbs

/-- Python `int()` on a character list (whitespace stripped by `int` itself). -/
def pyIntList (cs : List Char) : Option Int := pyIntOfChars (trimChars cs)

namespace Subsurface

/-- `subsurface_parser.DiveSite`. -/
structure DiveSite where
  uuid : String
  name : String
  latitude : Option ℚ := none
  longitude : Option ℚ := none
deriving DecidableEq, Repr

/-- `subsurface_parser.Dive`. -/
structure Dive where
  number : Int
  date : DateTime
  time : DateTime
  duration_minutes : Int
  site : DiveSite
  tags : List String
deriving DecidableEq, Repr

/-- The attributes of one `<dive>` XML element (`dive_elem.get(...)`:
`none` models an absent attribute). -/
structure DiveElem where
  number : Option String := none
  date : Option String := none
  time : Option String := none
  duration : Option String := none
  tags : Option String := none
  divesiteid : Option String := none
deriving DecidableEq, Repr

/-- `SubsurfaceParser._parse_datetime`: date `'%Y-%m-%d'` (required — empty or
invalid gives `None`), time `'%H:%M:%S'`, `'%H:%M'` or bare `'%H'` chosen by
the number of colons, with any time parse error falling back to midnight. -/
def parse_datetime (date_str time_str : String) : Option DateTime :=
  if date_str = "" then none
  else
    match parseYmd '-' date_str.data with
    | none => none
    | some (y, m, d) =>
        let t : Nat × Nat × Nat :=
          if time_str = "" then (0, 0, 0)
          else
            let cs := time_str.data
            if cs.contains ':' then
              if cs.count ':' = 2 then (parseHms cs).getD (0, 0, 0)
              else
                match parseHm cs with
                | some (h, mi) => (h, mi, 0)
                | none => (0, 0, 0)
            else
              match parseHourOnly cs with
              | some h => (h, 0, 0)
              | none => (0, 0, 0)
        some ⟨y, m, d, t.1, t.2.1, t.2.2⟩

/-- Python `duration_str.replace(' min', '')`: drop every occurrence of the
substring `" min"`, scanning left to right. -/
def replaceMin : List Char → List Char
  | ' ' :: 'm' :: 'i' :: 'n' :: rest => replaceMin rest
  | c :: rest => c :: replaceMin rest
  | [] => []

/-- `SubsurfaceParser._parse_duration`: `'MM:SS'`, `'H:MM:SS'` or bare
minutes, with an optional `' min'` suffix; any parse error gives 0.
Python `//` is floor division (`Int.fdiv`). -/
def parse_duration (duration_str : String) : Int :=
  if duration_str = "" ∨ duration_str = "0:00" then 0
  else
    let duration_clean := replaceMin duration_str.data
    match splitOnChar ':' duration_clean with
    | [p1, p2] =>
        match pyIntList p1, pyIntList p2 with
        | some minutes, some seconds => minutes + Int.fdiv seconds 60
        | _, _ => 0
    | [p1, p2, p3] =>
        match pyIntList p1, pyIntList p2, pyIntList p3 with
        | some hours, some minutes, some seconds =>
            hours * 60 + minutes + Int.fdiv seconds 60
        | _, _, _ => 0
    | _ => (pyIntList duration_clean).getD 0

/-- The tag list comprehension of `_parse_single_dive`:
`[tag.strip() for tag in tags_str.split(',') if tag.strip()]`. -/
def parse_tags (tags_str : String) : List String :=
  ((splitOnChar ',' tags_str.data).map trimChars).filterMap fun t =>
    if t.isEmpty then none else some (String.mk t)

/-- `SubsurfaceParser._parse_single_dive`: `sites` is the parsed
uuid → `DiveSite` dictionary.  A ValueError from `int(...)` on the `number`
attribute, or an unparseable/missing date, yields `None`; an unknown
`divesiteid` synthesizes the placeholder `DiveSite` named
`"Unknown Site {number}"` with no coordinates. -/
def parse_single_dive (sites : List (String × DiveSite)) (e : DiveElem) : Option Dive :=
  match (match e.number with | none => some 0 | some s => pyIntList s.data) with
  | none => none
  | some number =>
      match parse_datetime (e.date.getD "") (e.time.getD "") with
      | none => none
      | some dive_datetime =>
          let duration_minutes := parse_duration (e.duration.getD "0:00")
          let tags := parse_tags (e.tags.getD "")
          let site_uuid := pyStrip (e.divesiteid.getD "")
          let site : DiveSite :=
            match sites.lookup site_uuid with
            | some s => s
            | none =>
                { uuid := if site_uuid = "" then "unknown_" ++ intToStr number else site_uuid,
                  name := "Unknown Site " ++ intToStr number }
          some { number := number, date := dive_datetime, time := dive_datetime,
                 duration_minutes := duration_minutes, site := site, tags := tags }

end Subsurface

end PhotoTagger

namespace PhotoTagger

namespace Subsurface

/-- C10: a dive element that otherwise parses (number and date/time valid)
whose `divesiteid` matches no parsed site is still returned, with the
synthesized placeholder site `"Unknown Site {number}"` carrying no latitude
or longitude. -/
theorem parse_single_dive_unknown_site (sites : List (String × DiveSite)) (e : DiveElem)
    (number : Int) (dt : DateTime)
    (hnum : (match e.number with | none => some 0 | some s => pyIntList s.data) = some number)
    (hdt : parse_datetime (e.date.getD "") (e.time.getD "") = some dt)
    (hsite : sites.lookup (pyStrip (e.divesiteid.getD "")) = none) :
    parse_single_dive sites e = some
      { number := number, date := dt, time := dt,
        duration_minutes := parse_duration (e.duration.getD "0:00"),
        site := { uuid := if pyStrip (e.divesiteid.getD "") = "" then
                    "unknown_" ++ intToStr number
                  else pyStrip (e.divesiteid.getD ""),
                  name := "Unknown Site " ++ intToStr number,
                  latitude := none, longitude := none },
        tags := parse_tags (e.tags.getD "") } := by
  unfold parse_single_dive
  rw [hnum, hdt]
  dsimp only
  rw [hsite]

/-- Witness for C10 at a concrete dive element with an unknown site id. -/
theorem parse_single_dive_unknown_site_witness :
    parse_single_dive []
      { number := some "7", date := some "2024-01-15", time := some "09:00",
        duration := some "45:00 min", tags := some "boat, camera",
        divesiteid := some "site99" } =
      some
        { number := 7, date := ⟨2024, 1, 15, 9, 0, 0⟩, time := ⟨2024, 1, 15, 9, 0, 0⟩,
          duration_minutes := 45,
          site := { uuid := "site99", name := "Unknown Site 7",
                    latitude := none, longitude := none },
          tags := ["boat", "camera"] } := by
  have h := parse_single_dive_unknown_site []
    { number := some "7", date := some "2024-01-15", time := some "09:00",
      duration := some "45:00 min", tags := some "boat, camera",
      divesiteid := some "site99" }
    7 ⟨2024, 1, 15, 9, 0, 0⟩ (by decide) (by decide) (by decide)
  rw [h]
  decide

end Subsurface

end PhotoTagger
